import Mathlib

/-
Shallow embedding of the eyebalance backend (src/server.js together with the
sqlite schema of src/db.js): the subscriptions table, the Stripe webhook
route, and the subscription-status route.  Machine behaviour that matters
here and is modelled faithfully:

* JS truthiness on the strings the guards test (`!deviceId`): `undefined`
  and `""` are falsy.
* `x ? x * 1000 : null` on `trial_end`: the number 0 is falsy in JS.
* sqlite semantics of the two statements the route runs: a plain UPDATE,
  and an `INSERT ... ON CONFLICT(deviceId) DO UPDATE`.  The schema created
  by db.js declares `trial INTEGER NOT NULL` with no default, the INSERT in
  server.js omits the `trial` column (so its inserted value is NULL), and
  sqlite checks NOT NULL constraints before uniqueness constraints — the
  upsert clause only intervenes for uniqueness-constraint conflicts — so
  that INSERT aborts with SQLITE_CONSTRAINT_NOTNULL whether or not the
  conflicting row exists.
* the outer try/catch of the route, which converts every exception thrown after
  signature verification into the `{received: true}` acknowledgment.
-/

namespace EyeBalance

/-- A row of the `subscriptions` table as created by db.js:
`deviceId TEXT PRIMARY KEY, plan TEXT NOT NULL, status TEXT NOT NULL,
trial INTEGER NOT NULL, expiresAt INTEGER, customerId TEXT`.
The primary key `deviceId` is the key of the store map, not a field. -/
structure Row where
  plan : String
  status : String
  trial : Int
  expiresAt : Option Int
  customerId : Option String
deriving DecidableEq

/-- The `subscriptions` table: at most one row per `deviceId` (PRIMARY KEY). -/
abbrev Store := String → Option Row

/-- JS truthiness test on an optional string: `undefined` and `""` are falsy. -/
def strFalsy : Option String → Bool
  | none => true
  | some s => decide (s = "")

/-- Milliseconds conversion `trial_end ? trial_end * 1000 : null` — seconds to
milliseconds, with the JS falsiness of the number 0. -/
def trialEndMs : Option Int → Option Int
  | none => none
  | some t => if t = 0 then none else some (t * 1000)

/-- One element of `subscription.items.data`; the code reads only
`price.recurring.interval` from it. -/
structure SubItem where
  interval : String
deriving DecidableEq

/-- The fields of a Stripe subscription object that server.js reads
(`event.data.object` of a subscription event, or the result of
`stripe.subscriptions.retrieve`). -/
structure Subscription where
  metadata_deviceId : Option String
  items : List SubItem
  status : String
  trial_end : Option Int
  customer : Option String
deriving DecidableEq

/-- The fields of a checkout session object that server.js reads. -/
structure CheckoutSession where
  metadata_deviceId : Option String
  metadata_plan : Option String
  subscription : Option String
deriving DecidableEq

/-- The fields of an invoice object that server.js reads. -/
structure Invoice where
  subscription : Option String
deriving DecidableEq

/-- A decoded webhook event: the event `type` tag together with
`event.data.object` in the shape that tag implies.  `otherType` covers every
type the route does not branch on. -/
inductive Event where
  | checkoutSessionCompleted (session : CheckoutSession)
  | customerSubscriptionCreated (sub : Subscription)
  | customerSubscriptionUpdated (sub : Subscription)
  | invoicePaymentFailed (invoice : Invoice)
  | customerSubscriptionDeleted (sub : Subscription)
  | otherType (tag : String)
deriving DecidableEq

/-- The external Stripe API as the webhook route uses it:
`retrieve` models `stripe.subscriptions.retrieve`; `none` models the API
call rejecting, which in the JS code surfaces as a thrown exception. -/
structure Env where
  retrieve : String → Option Subscription

/-- sqlite semantics of the upsert statement of server.js
`INSERT INTO subscriptions (deviceId, plan, status, expiresAt, customerId)
VALUES (?, ?, ?, ?, ?) ON CONFLICT(deviceId) DO UPDATE SET
plan=excluded.plan, status=excluded.status, expiresAt=excluded.expiresAt,
customerId=excluded.customerId` against the db.js schema.  The `trial`
column is absent from the column list, so its inserted value is NULL; the
call sites therefore pass `trial := none`.  sqlite checks the NOT NULL
constraints of the inserted tuple before the uniqueness constraints, and
the DO UPDATE clause fires only on a uniqueness conflict, so a NULL in any
NOT NULL column aborts the whole statement even when the row exists. -/
def upsertSubscriptions (s : Store) (deviceId : String) (plan status : Option String)
    (trial : Option Int) (expiresAt : Option Int) (customerId : Option String) :
    Except String Store :=
  match plan, status, trial with
  | some p, some st, some tr =>
    match s deviceId with
    | some r =>
      .ok (fun d => if d = deviceId then
            some { r with plan := p, status := st, expiresAt := expiresAt,
                          customerId := customerId }
          else s d)
    | none =>
      .ok (fun d => if d = deviceId then some ⟨p, st, tr, expiresAt, customerId⟩ else s d)
  | _, _, _ => .error "NOT NULL constraint failed"

/-- Semantics of UPDATE subscriptions SET status=inactive WHERE deviceId=?
(affects zero rows when no row has that key). -/
def updateStatusInactive (s : Store) (deviceId : String) : Store :=
  fun d => if d = deviceId then (s d).map (fun r => { r with status := "inactive" }) else s d

/-- Semantics of UPDATE subscriptions SET plan=free, status=inactive,
expiresAt=NULL WHERE deviceId=? (affects zero rows when no row has that key). -/
def updateSoftReset (s : Store) (deviceId : String) : Store :=
  fun d => if d = deviceId then
      (s d).map (fun r => { r with plan := "free", status := "inactive", expiresAt := none })
    else s d

/-- The body of the webhook route after signature verification: the store
effect of one verified event, following the branch structure of server.js.
`.error` marks a thrown JS exception (later caught by the outer
try/catch); `.ok` paths all fall through to `res.json({received: true})`.
In every branch the store mutation is the final action, so an exception
never leaves a partial mutation behind. -/
def processEvent (env : Env) (event : Event) (s : Store) : Except String Store :=
  match event with
  | .checkoutSessionCompleted session =>
    match session.metadata_deviceId, session.subscription with
    | some deviceId, some sid =>
      if deviceId = "" ∨ sid = "" then .ok s
      else
        match env.retrieve sid with
        | none => .error "stripe.subscriptions.retrieve rejected"
        | some subscription =>
          upsertSubscriptions s deviceId session.metadata_plan (some subscription.status)
            none (trialEndMs subscription.trial_end) subscription.customer
    | _, _ => .ok s
  | .customerSubscriptionCreated sub | .customerSubscriptionUpdated sub =>
    match sub.metadata_deviceId with
    | some deviceId =>
      if deviceId = "" then .ok s
      else
        match sub.items.head? with
        | none => .error "TypeError: sub.items.data[0] is undefined"
        | some item =>
          upsertSubscriptions s deviceId
            (some (if item.interval = "year" then "yearly" else "monthly"))
            (some sub.status) none (trialEndMs sub.trial_end) sub.customer
    | none => .ok s
  | .invoicePaymentFailed invoice =>
    match invoice.subscription with
    | some sid =>
      if sid = "" then .ok s
      else
        match env.retrieve sid with
        | none => .error "stripe.subscriptions.retrieve rejected"
        | some sub =>
          match sub.metadata_deviceId with
          | some deviceId =>
            if deviceId = "" then .ok s else .ok (updateStatusInactive s deviceId)
          | none => .ok s
    | none => .ok s
  | .customerSubscriptionDeleted sub =>
    match sub.metadata_deviceId with
    | some deviceId =>
      if deviceId = "" then .ok s else .ok (updateSoftReset s deviceId)
    | none => .ok s
  | .otherType _ => .ok s

/-- The two responses the webhook route can send. -/
inductive Response where
  | ack
  | invalidSignature
deriving DecidableEq

/-- HTTP status of each webhook response: `res.json({received: true})` is a
200, `res.status(400).send("Invalid signature")` is a 400. -/
def Response.statusCode : Response → Nat
  | .ack => 200
  | .invalidSignature => 400

/-- The whole POST /webhook route.  `verified = none` models
`stripe.webhooks.constructEvent` throwing (signature verification failure),
answered with the 400 rejection before anything else runs; otherwise the
event is processed and the outer try/catch converts any thrown exception
into the acknowledgment, with the store as it was when the exception was
thrown (which is the incoming store, since every store mutation is the
final action of its branch). -/
def webhook (env : Env) (verified : Option Event) (s : Store) : Store × Response :=
  match verified with
  | none => (s, .invalidSignature)
  | some event =>
    match processEvent env event s with
    | .ok s' => (s', .ack)
    | .error _ => (s, .ack)

/-- The body returned by GET /subscription-status/:deviceId. -/
structure StatusBody where
  plan : String
  status : String
  expiresAt : Option Int
deriving DecidableEq

/-- GET /subscription-status/:deviceId: read the row and report its fields,
defaulting to the free/inactive/null triple when no row exists. -/
def subscriptionStatus (s : Store) (deviceId : String) : StatusBody :=
  match s deviceId with
  | none => ⟨"free", "inactive", none⟩
  | some row => ⟨row.plan, row.status, row.expiresAt⟩

/-- The five event types the route branches on. -/
def recognizedType : Event → Bool
  | .otherType _ => false
  | _ => true

/-- The event carries no resolvable device linkage, per the resolution path
the route uses for each type: session/subscription metadata for the direct
types, and the metadata of the retrieved subscription for an invoice. -/
def lacksDeviceLinkage (env : Env) : Event → Bool
  | .checkoutSessionCompleted session => strFalsy session.metadata_deviceId
  | .customerSubscriptionCreated sub | .customerSubscriptionUpdated sub
  | .customerSubscriptionDeleted sub => strFalsy sub.metadata_deviceId
  | .invoicePaymentFailed invoice =>
    match invoice.subscription with
    | none => true
    | some sid =>
      if sid = "" then true
      else
        match env.retrieve sid with
        | none => false
        | some sub => strFalsy sub.metadata_deviceId
  | .otherType _ => false

/- ------------------------------------------------------------------ -/
/- Helper lemmas                                                       -/
/- ------------------------------------------------------------------ -/

/-- With `trial := none` — which is what the INSERT in server.js produces,
since it omits the `trial` column — the upsert statement always aborts on the
schema constraint `trial INTEGER NOT NULL`, whether or not the row exists. -/
lemma upsert_trial_none (s : Store) (deviceId : String) (plan status : Option String)
    (expiresAt : Option Int) (customerId : Option String) :
    upsertSubscriptions s deviceId plan status none expiresAt customerId =
      .error "NOT NULL constraint failed" := by
  cases plan <;> cases status <;> rfl

/-- A verified `checkout.session.completed` event never changes the store:
either a guard returns early, the Stripe lookup throws, or the upsert aborts
on the `trial` NOT NULL constraint; in every case the route acknowledges. -/
lemma webhook_checkout (env : Env) (session : CheckoutSession) (s : Store) :
    webhook env (some (.checkoutSessionCompleted session)) s = (s, Response.ack) := by
  obtain ⟨mdid, mplan, msub⟩ := session
  cases mdid with
  | none => cases msub <;> rfl
  | some d =>
    cases msub with
    | none => rfl
    | some sid =>
      by_cases hg : d = "" ∨ sid = ""
      · simp [webhook, processEvent, hg]
      · cases hr : env.retrieve sid with
        | none => simp [webhook, processEvent, hg, hr]
        | some subscription => simp [webhook, processEvent, hg, hr, upsert_trial_none]

/-- The created and updated branches run the same code in server.js. -/
lemma processEvent_created_eq_updated (env : Env) (sub : Subscription) (s : Store) :
    processEvent env (.customerSubscriptionCreated sub) s =
      processEvent env (.customerSubscriptionUpdated sub) s := rfl

/-- A verified `customer.subscription.updated` event never changes the store:
either a guard returns early, the items access throws, or the upsert aborts
on the `trial` NOT NULL constraint; in every case the route acknowledges. -/
lemma webhook_subUpdated (env : Env) (sub : Subscription) (s : Store) :
    webhook env (some (.customerSubscriptionUpdated sub)) s = (s, Response.ack) := by
  obtain ⟨mdid, items, st, te, cust⟩ := sub
  cases mdid with
  | none => rfl
  | some d =>
    by_cases hd : d = ""
    · simp [webhook, processEvent, hd]
    · cases hi : items.head? with
      | none => simp [webhook, processEvent, hd, hi]
      | some item => simp [webhook, processEvent, hd, hi, upsert_trial_none]

/-- Same for `customer.subscription.created` (identical branch). -/
lemma webhook_subCreated (env : Env) (sub : Subscription) (s : Store) :
    webhook env (some (.customerSubscriptionCreated sub)) s = (s, Response.ack) := by
  have h := webhook_subUpdated env sub s
  simp only [webhook] at h ⊢
  rw [processEvent_created_eq_updated]
  exact h

/- ------------------------------------------------------------------ -/
/- Concrete fixtures for witnesses and counterevidence                 -/
/- ------------------------------------------------------------------ -/

/-- An environment in which every Stripe lookup rejects. -/
def env0 : Env := ⟨fun _ => none⟩

/-- A pre-existing row for device "abc" (such rows can only come from runs of
earlier revisions of the code, whose INSERT still supplied `trial`). -/
def row_abc : Row := ⟨"monthly", "trialing", 1, some 1700000000000, some "cus_1"⟩

/-- A store holding exactly the row for device "abc". -/
def store_abc : Store := fun d => if d = "abc" then some row_abc else none

/-- A store holding no rows. -/
def emptyStore : Store := fun _ => none

/-- The subscription object of an updated event for device "abc" reporting
status "active". -/
def sub_abc_active : Subscription := ⟨some "abc", [⟨"month"⟩], "active", none, some "cus_1"⟩

/-- A `customer.subscription.updated` event for device "abc". -/
def upd_abc : Event := .customerSubscriptionUpdated sub_abc_active

/-- The subscription object of a deleted event for device "abc". -/
def sub_del_abc : Subscription := ⟨some "abc", [], "canceled", none, some "cus_1"⟩

/- ------------------------------------------------------------------ -/
/- Claim theorems                                                      -/
/- ------------------------------------------------------------------ -/

/-- C1 (counterevidence for the code bug): a signed
`customer.subscription.updated` event for device "abc" carrying status
"active" is processed against a store whose row for "abc" says "trialing".
The upsert of that branch aborts on the `trial` NOT NULL constraint (the INSERT
omits the column the db.js schema requires), so nothing is written: after
one and after two applications the row still carries the stale values, and
no plan/status/expiresAt/customerId values were ever written, contrary to
the description in the claim of the handler upserting them. -/
theorem c1_updated_upsert_never_writes :
    processEvent env0 upd_abc store_abc = .error "NOT NULL constraint failed" ∧
    (webhook env0 (some upd_abc) store_abc).1 "abc" = some row_abc ∧
    (webhook env0 (some upd_abc)
        ((webhook env0 (some upd_abc) store_abc).1)).1 "abc" = some row_abc ∧
    sub_abc_active.status = "active" ∧ row_abc.status = "trialing" :=
  ⟨rfl, rfl, rfl, rfl, rfl⟩

/-- C2: for a `checkout.session.completed` event and a
`customer.subscription.created` event describing the same underlying
subscription (same device, matching plan/interval, status, trial end and
customer), delivery in either order leaves the record of that device in the same
final state. -/
theorem c2_checkout_created_order_independent
    (env : Env) (s : Store) (session : CheckoutSession) (sub : Subscription)
    (d sid : String) (item : SubItem) (rsub : Subscription)
    (hd1 : session.metadata_deviceId = some d)
    (hd2 : sub.metadata_deviceId = some d)
    (hdne : d ≠ "")
    (hsid : session.subscription = some sid) (hsidne : sid ≠ "")
    (hret : env.retrieve sid = some rsub)
    (hitem : sub.items.head? = some item)
    (hplan : session.metadata_plan =
      some (if item.interval = "year" then "yearly" else "monthly"))
    (hst : rsub.status = sub.status)
    (hte : rsub.trial_end = sub.trial_end)
    (hcust : rsub.customer = sub.customer) :
    (webhook env (some (.customerSubscriptionCreated sub))
        (webhook env (some (.checkoutSessionCompleted session)) s).1).1 d =
    (webhook env (some (.checkoutSessionCompleted session))
        (webhook env (some (.customerSubscriptionCreated sub)) s).1).1 d := by
  simp [webhook_checkout, webhook_subCreated]

/-- C4: a `customer.subscription.deleted` event with a resolvable deviceId
soft-resets the row of that device to plan "free", status "inactive",
expiresAt NULL, keeping every other field (in particular customerId). -/
theorem c4_deleted_soft_reset (env : Env) (s : Store) (sub : Subscription)
    (d : String) (r : Row)
    (hdev : sub.metadata_deviceId = some d) (hne : d ≠ "") (hr : s d = some r) :
    (webhook env (some (.customerSubscriptionDeleted sub)) s).1 d =
      some { r with plan := "free", status := "inactive", expiresAt := none } := by
  simp [webhook, processEvent, hdev, hne, updateSoftReset, hr]

/-- C4 witness: concrete deleted event for "abc" against the store holding
`row_abc`. -/
theorem c4_witness :
    sub_del_abc.metadata_deviceId = some "abc" ∧ "abc" ≠ "" ∧
    store_abc "abc" = some row_abc ∧
    (webhook env0 (some (.customerSubscriptionDeleted sub_del_abc)) store_abc).1 "abc" =
      some { row_abc with plan := "free", status := "inactive", expiresAt := none } :=
  ⟨rfl, by decide, rfl,
    c4_deleted_soft_reset env0 store_abc sub_del_abc "abc" row_abc rfl (by decide) rfl⟩

/-- C5: an `invoice.payment_failed` event whose referenced subscription
resolves to a deviceId sets only the status of that row to "inactive"; plan,
expiresAt and customerId keep their values, and every other row is
untouched. -/
theorem c5_payment_failed_only_status (env : Env) (s : Store) (invoice : Invoice)
    (sid d : String) (sub : Subscription) (r : Row)
    (hsid : invoice.subscription = some sid) (hsne : sid ≠ "")
    (hret : env.retrieve sid = some sub)
    (hdev : sub.metadata_deviceId = some d) (hdne : d ≠ "")
    (hr : s d = some r) :
    (webhook env (some (.invoicePaymentFailed invoice)) s).1 d =
      some { r with status := "inactive" } ∧
    ∀ d', d' ≠ d → (webhook env (some (.invoicePaymentFailed invoice)) s).1 d' = s d' := by
  constructor
  · simp [webhook, processEvent, hsid, hsne, hret, hdev, hdne, updateStatusInactive, hr]
  · intro d' hne'
    simp [webhook, processEvent, hsid, hsne, hret, hdev, hdne, updateStatusInactive, hne']

/-- The subscription the failed invoice of the C5 witness refers to. -/
def subF : Subscription := ⟨some "abc", [⟨"month"⟩], "past_due", none, some "cus_1"⟩

/-- An environment resolving subscription id "sub_1" to `subF`. -/
def envF : Env := ⟨fun sid => if sid = "sub_1" then some subF else none⟩

/-- A failed invoice referencing subscription "sub_1". -/
def invW : Invoice := ⟨some "sub_1"⟩

/-- C5 witness: the example from the spec — the "abc" row goes from status
"trialing" to "inactive", all other fields and rows untouched. -/
theorem c5_witness :
    invW.subscription = some "sub_1" ∧ "sub_1" ≠ "" ∧
    envF.retrieve "sub_1" = some subF ∧
    subF.metadata_deviceId = some "abc" ∧ "abc" ≠ "" ∧
    store_abc "abc" = some row_abc ∧
    ((webhook envF (some (.invoicePaymentFailed invW)) store_abc).1 "abc" =
        some { row_abc with status := "inactive" } ∧
      ∀ d', d' ≠ "abc" →
        (webhook envF (some (.invoicePaymentFailed invW)) store_abc).1 d' = store_abc d') :=
  ⟨rfl, by decide, rfl, rfl, by decide, rfl,
    c5_payment_failed_only_status envF store_abc invW "sub_1" "abc" subF row_abc
      rfl (by decide) rfl rfl (by decide) rfl⟩

/-- C6: a request that fails signature verification gets the 400 rejection
(which is not the acknowledgment) and the store is untouched. -/
theorem c6_bad_signature_rejects (env : Env) (s : Store) :
    webhook env none s = (s, Response.invalidSignature) ∧
    Response.invalidSignature ≠ Response.ack ∧
    Response.statusCode Response.invalidSignature = 400 :=
  ⟨rfl, by decide, rfl⟩

/-- C7: once signature verification has succeeded, the route answers the
acknowledgment (HTTP 200, body `{received: true}`) for every event and every
environment behaviour: any thrown failure is caught by the outer try/catch. -/
theorem c7_verified_always_ack (env : Env) (e : Event) (s : Store) :
    (webhook env (some e) s).2 = Response.ack ∧
    Response.statusCode (webhook env (some e) s).2 = 200 := by
  cases h : processEvent env e s <;> simp [webhook, h, Response.statusCode]

/-- C8: for a device with no row, the status query returns exactly the
free/inactive/null triple. -/
theorem c8_unknown_device_default (s : Store) (d : String) (h : s d = none) :
    subscriptionStatus s d = ⟨"free", "inactive", none⟩ := by
  simp [subscriptionStatus, h]

/-- C8 witness: the empty store and an arbitrary device id. -/
theorem c8_witness :
    emptyStore "device-1" = none ∧
    subscriptionStatus emptyStore "device-1" = ⟨"free", "inactive", none⟩ :=
  ⟨rfl, c8_unknown_device_default emptyStore "device-1" rfl⟩

/-- The subscription object the C2 witness environment returns for "sub_1". -/
def rsubW : Subscription := ⟨some "abc", [⟨"month"⟩], "trialing", some 1699000000, some "cus_1"⟩

/-- C2 witness environment: subscription id "sub_1" resolves to `rsubW`. -/
def envW : Env := ⟨fun sid => if sid = "sub_1" then some rsubW else none⟩

/-- C2 witness checkout session: device "abc", plan "monthly", sub "sub_1". -/
def sessionW : CheckoutSession := ⟨some "abc", some "monthly", some "sub_1"⟩

/-- C2 witness created-event subscription object, consistent with `rsubW`. -/
def subW : Subscription := ⟨some "abc", [⟨"month"⟩], "trialing", some 1699000000, some "cus_1"⟩

/-- C2 witness: a concrete consistent checkout/created event pair, delivered
in both orders against the store holding `row_abc`. -/
theorem c2_witness :
    sessionW.metadata_deviceId = some "abc" ∧
    subW.metadata_deviceId = some "abc" ∧
    "abc" ≠ "" ∧
    sessionW.subscription = some "sub_1" ∧
    "sub_1" ≠ "" ∧
    envW.retrieve "sub_1" = some rsubW ∧
    subW.items.head? = some ⟨"month"⟩ ∧
    sessionW.metadata_plan =
      some (if (⟨"month"⟩ : SubItem).interval = "year" then "yearly" else "monthly") ∧
    rsubW.status = subW.status ∧
    rsubW.trial_end = subW.trial_end ∧
    rsubW.customer = subW.customer ∧
    (webhook envW (some (.customerSubscriptionCreated subW))
        (webhook envW (some (.checkoutSessionCompleted sessionW)) store_abc).1).1 "abc" =
      (webhook envW (some (.checkoutSessionCompleted sessionW))
        (webhook envW (some (.customerSubscriptionCreated subW)) store_abc).1).1 "abc" :=
  ⟨rfl, rfl, by decide, rfl, by decide, rfl, rfl, by decide, rfl, rfl, rfl,
    c2_checkout_created_order_independent envW store_abc sessionW subW "abc" "sub_1"
      ⟨"month"⟩ rsubW rfl rfl (by decide) rfl (by decide) rfl rfl (by decide)
      rfl rfl rfl⟩

/-- C3: a signature-verified event of a recognized type with no resolvable
device linkage changes nothing: the branch returns without throwing
(`Except.ok` with the incoming store, unchanged) and the route acknowledges. -/
theorem c3_unresolvable_linkage_noop (env : Env) (e : Event) (s : Store)
    (hrec : recognizedType e = true) (hlack : lacksDeviceLinkage env e = true) :
    processEvent env e s = .ok s ∧ webhook env (some e) s = (s, Response.ack) := by
  have hp : processEvent env e s = .ok s := by
    cases e with
    | checkoutSessionCompleted session =>
      obtain ⟨mdid, mplan, msub⟩ := session
      cases mdid with
      | none => cases msub <;> rfl
      | some d =>
        simp only [lacksDeviceLinkage, strFalsy, decide_eq_true_eq] at hlack
        subst hlack
        cases msub with
        | none => rfl
        | some sid => simp [processEvent]
    | customerSubscriptionCreated sub =>
      obtain ⟨mdid, items, st, te, cust⟩ := sub
      cases mdid with
      | none => rfl
      | some d =>
        simp only [lacksDeviceLinkage, strFalsy, decide_eq_true_eq] at hlack
        subst hlack
        simp [processEvent]
    | customerSubscriptionUpdated sub =>
      obtain ⟨mdid, items, st, te, cust⟩ := sub
      cases mdid with
      | none => rfl
      | some d =>
        simp only [lacksDeviceLinkage, strFalsy, decide_eq_true_eq] at hlack
        subst hlack
        simp [processEvent]
    | customerSubscriptionDeleted sub =>
      obtain ⟨mdid, items, st, te, cust⟩ := sub
      cases mdid with
      | none => rfl
      | some d =>
        simp only [lacksDeviceLinkage, strFalsy, decide_eq_true_eq] at hlack
        subst hlack
        simp [processEvent]
    | invoicePaymentFailed invoice =>
      obtain ⟨msub⟩ := invoice
      cases msub with
      | none => rfl
      | some sid =>
        simp only [lacksDeviceLinkage] at hlack
        by_cases hs : sid = ""
        · subst hs
          simp [processEvent]
        · rw [if_neg hs] at hlack
          cases hr : env.retrieve sid with
          | none => rw [hr] at hlack; simp at hlack
          | some sub =>
            rw [hr] at hlack
            replace hlack : strFalsy sub.metadata_deviceId = true := hlack
            cases hmd : sub.metadata_deviceId with
            | none => simp [processEvent, hs, hr, hmd]
            | some dd =>
              rw [hmd] at hlack
              simp only [strFalsy, decide_eq_true_eq] at hlack
              subst hlack
              simp [processEvent, hs, hr, hmd]
    | otherType tag => simp [recognizedType] at hrec
  refine ⟨hp, ?_⟩
  simp [webhook, hp]

/-- C3 witness event: a deleted event whose subscription object has no
deviceId metadata. -/
def ev3 : Event := .customerSubscriptionDeleted ⟨none, [], "canceled", none, none⟩

/-- C3 witness: the linkage-free deleted event leaves the store holding
`row_abc` untouched and is acknowledged. -/
theorem c3_witness :
    recognizedType ev3 = true ∧ lacksDeviceLinkage env0 ev3 = true ∧
    processEvent env0 ev3 store_abc = .ok store_abc ∧
    webhook env0 (some ev3) store_abc = (store_abc, Response.ack) :=
  ⟨rfl, rfl, (c3_unresolvable_linkage_noop env0 ev3 store_abc rfl rfl).1,
    (c3_unresolvable_linkage_noop env0 ev3 store_abc rfl rfl).2⟩

/-- C9: customerId is sticky — a row whose customerId is non-null still has a
non-null customerId after any lifecycle event is processed.  (The upsert
branches never write at all because their INSERT aborts on the `trial`
NOT NULL constraint, and the two UPDATE branches never touch customerId.) -/
theorem c9_customerId_sticky (env : Env) (e : Event) (s : Store) (d : String) (r : Row)
    (hr : s d = some r) (hc : r.customerId.isSome = true) :
    ∃ r', (webhook env (some e) s).1 d = some r' ∧ r'.customerId.isSome = true := by
  cases e with
  | checkoutSessionCompleted session =>
    rw [webhook_checkout]; exact ⟨r, hr, hc⟩
  | customerSubscriptionCreated sub =>
    rw [webhook_subCreated]; exact ⟨r, hr, hc⟩
  | customerSubscriptionUpdated sub =>
    rw [webhook_subUpdated]; exact ⟨r, hr, hc⟩
  | otherType tag => exact ⟨r, hr, hc⟩
  | invoicePaymentFailed invoice =>
    obtain ⟨msub⟩ := invoice
    cases msub with
    | none => exact ⟨r, hr, hc⟩
    | some sid =>
      by_cases hs : sid = ""
      · subst hs
        exact ⟨r, by simp [webhook, processEvent, hr], hc⟩
      · cases hret : env.retrieve sid with
        | none =>
          exact ⟨r, by simp [webhook, processEvent, hs, hret, hr], hc⟩
        | some sub =>
          cases hmd : sub.metadata_deviceId with
          | none => exact ⟨r, by simp [webhook, processEvent, hs, hret, hmd, hr], hc⟩
          | some dd =>
            by_cases hdd : dd = ""
            · subst hdd
              exact ⟨r, by simp [webhook, processEvent, hs, hret, hmd, hr], hc⟩
            · by_cases hde : d = dd
              · subst hde
                refine ⟨{ r with status := "inactive" }, ?_, hc⟩
                simp [webhook, processEvent, hs, hret, hmd, hdd,
                  updateStatusInactive, hr]
              · refine ⟨r, ?_, hc⟩
                simp [webhook, processEvent, hs, hret, hmd, hdd,
                  updateStatusInactive, hde, hr]
  | customerSubscriptionDeleted sub =>
    cases hmd : sub.metadata_deviceId with
    | none => exact ⟨r, by simp [webhook, processEvent, hmd, hr], hc⟩
    | some dd =>
      by_cases hdd : dd = ""
      · subst hdd
        exact ⟨r, by simp [webhook, processEvent, hmd, hr], hc⟩
      · by_cases hde : d = dd
        · subst hde
          refine ⟨{ r with plan := "free", status := "inactive", expiresAt := none }, ?_, hc⟩
          simp [webhook, processEvent, hmd, hdd, updateSoftReset, hr]
        · refine ⟨r, ?_, hc⟩
          simp [webhook, processEvent, hmd, hdd, updateSoftReset, hde, hr]

/-- C9 witness: the "abc" row has customerId "cus_1"; after a deleted event
for "abc" the row still has a non-null customerId. -/
theorem c9_witness :
    store_abc "abc" = some row_abc ∧ row_abc.customerId.isSome = true ∧
    ∃ r', (webhook env0 (some (Event.customerSubscriptionDeleted sub_del_abc))
        store_abc).1 "abc" = some r' ∧ r'.customerId.isSome = true :=
  ⟨rfl, rfl,
    c9_customerId_sticky env0 (Event.customerSubscriptionDeleted sub_del_abc)
      store_abc "abc" row_abc rfl rfl⟩

/-- C10: the deleted and payment-failed branches run UPDATE statements,
which affect zero rows when none exists: a device with no row still has no
row afterwards. -/
theorem c10_update_only_no_insert (env : Env) (e : Event) (s : Store) (d : String)
    (he : (∃ sub, e = Event.customerSubscriptionDeleted sub) ∨
      (∃ invoice, e = Event.invoicePaymentFailed invoice))
    (h : s d = none) :
    (webhook env (some e) s).1 d = none := by
  rcases he with ⟨sub, rfl⟩ | ⟨invoice, rfl⟩
  · cases hmd : sub.metadata_deviceId with
    | none => simpa [webhook, processEvent, hmd] using h
    | some dd =>
      by_cases hdd : dd = ""
      · subst hdd; simpa [webhook, processEvent, hmd] using h
      · by_cases hde : d = dd
        · subst hde
          simp [webhook, processEvent, hmd, hdd, updateSoftReset, h]
        · simp [webhook, processEvent, hmd, hdd, updateSoftReset, hde, h]
  · obtain ⟨msub⟩ := invoice
    cases msub with
    | none => simpa [webhook, processEvent] using h
    | some sid =>
      by_cases hs : sid = ""
      · subst hs; simpa [webhook, processEvent] using h
      · cases hret : env.retrieve sid with
        | none => simpa [webhook, processEvent, hs, hret] using h
        | some sub =>
          cases hmd : sub.metadata_deviceId with
          | none => simpa [webhook, processEvent, hs, hret, hmd] using h
          | some dd =>
            by_cases hdd : dd = ""
            · subst hdd; simpa [webhook, processEvent, hs, hret, hmd] using h
            · by_cases hde : d = dd
              · subst hde
                simp [webhook, processEvent, hs, hret, hmd, hdd,
                  updateStatusInactive, h]
              · simp [webhook, processEvent, hs, hret, hmd, hdd,
                  updateStatusInactive, hde, h]

/-- C10 witness: a deleted event for "abc" against the empty store leaves
"abc" with no row. -/
theorem c10_witness :
    ((∃ sub, Event.customerSubscriptionDeleted sub_del_abc =
        Event.customerSubscriptionDeleted sub) ∨
      (∃ invoice, Event.customerSubscriptionDeleted sub_del_abc =
        Event.invoicePaymentFailed invoice)) ∧
    emptyStore "abc" = none ∧
    (webhook env0 (some (Event.customerSubscriptionDeleted sub_del_abc))
        emptyStore).1 "abc" = none :=
  ⟨Or.inl ⟨sub_del_abc, rfl⟩, rfl,
    c10_update_only_no_insert env0 (Event.customerSubscriptionDeleted sub_del_abc)
      emptyStore "abc" (Or.inl ⟨sub_del_abc, rfl⟩) rfl⟩

end EyeBalance
